import Mathlib

/-!
Verification of the TaskFlow task-management SPA core workflow:
team connections (TeamPage: loadTeamData, sendInvite, respondToRequest),
task creation/update (TasksPage: handleCreateTask, handleUpdateTask,
handleStatusChange, filteredTasks; TaskDialog: handleSave), and the
notification feed (NotificationCenter: loadNotifications, markAsRead,
markAllAsRead).

The handlers are shallowly embedded as pure functions.  Each external
call a handler performs (record-store create/update, outbound email) is
transcribed, in program order, into a `List Effect` the function
returns; stateful handlers additionally thread the relevant record
store explicitly.  JavaScript truthiness on optional strings (undefined
and the empty string are both falsy) is modelled by `jsTruthy`/`jsOrStr`.
The record store itself (the hosted blink.db client) is external to the
repository; its `list` query semantics (equality `where` filters,
`orderBy created_at desc`, `limit`) are modelled from the spec's
external-interface contract, with `List.insertionSort` standing in for
the store's ordering.
-/

namespace TaskFlow

/-- Lowercasing, char by char; models JavaScript `String.toLowerCase`. -/
def strLower (s : String) : String := ⟨s.data.map Char.toLower⟩

/-- Whitespace trimming at both ends; models JavaScript `String.trim`. -/
def strTrim (s : String) : String :=
  ⟨((s.data.dropWhile Char.isWhitespace).reverse.dropWhile Char.isWhitespace).reverse⟩

/-- Substring containment; models JavaScript `String.includes`. -/
def jsIncludes (s sub : String) : Bool := decide (sub.data <:+: s.data)

/-- Truthiness of an optional string: `undefined` and `""` are falsy. -/
def jsTruthy : Option String → Bool
  | none => false
  | some s => !s.isEmpty

/-- JavaScript `x || d` for an optional string `x` and string default `d`. -/
def jsOrStr (o : Option String) (d : String) : String :=
  match o with
  | none => d
  | some s => if s.isEmpty then d else s

/-- JavaScript `x || null` for an optional string `x`: an empty string
collapses to null. -/
def jsOrNull (o : Option String) : Option String :=
  match o with
  | none => none
  | some s => if s.isEmpty then none else some s

/-- A row of the `user_connections` collection (TeamPage's `Connection`
interface).  `recipient_id` is absent until the recipient responds;
the email fields are optional in the interface.  Timestamps are
abstracted to naturals. -/
structure Connection where
  id : String
  requester_id : String
  recipient_id : Option String
  status : String
  requester_email : Option String
  recipient_email : Option String
  created_at : Nat
  updated_at : Nat
deriving DecidableEq

/-- A derived team member (TeamPage's `TeamMember` interface). -/
structure TeamMember where
  id : String
  email : String
  display_name : String
deriving DecidableEq

/-- A row of the `tasks` collection (TasksPage's `Task` interface,
including the assignee fields declared in the TaskDialog variant
embedded in TasksPage.tsx). -/
structure Task where
  id : String
  title : String
  description : Option String
  status : String
  priority : String
  due_date : Option String
  project_id : Option String
  user_id : String
  assignee_id : Option String
  assignee_email : Option String
  created_at : Nat
  updated_at : Nat
deriving DecidableEq

/-- The `Partial<Task>` payload `TaskDialog.handleSave` passes to
`onSave` and hence to `handleCreateTask`: `title` is always supplied
(the handler dereferences `taskData.title!`), everything else is
optional. -/
structure TaskPayload where
  title : String
  description : Option String
  status : Option String
  priority : Option String
  due_date : Option String
  project_id : Option String
  assignee_id : Option String
  assignee_email : Option String
deriving DecidableEq

/-- A fully optional `Partial<Task>` patch as passed to
`handleUpdateTask`. -/
structure TaskPatch where
  title : Option String
  description : Option String
  status : Option String
  priority : Option String
  due_date : Option String
  project_id : Option String
  assignee_id : Option String
  assignee_email : Option String
deriving DecidableEq

/-- The record `sendInvite` passes to `user_connections.create`
(exactly the four fields of the source's object literal; id and
timestamps are server-assigned). -/
structure ConnectionNew where
  requester_id : String
  recipient_email : String
  requester_email : String
  status : String
deriving DecidableEq

/-- The patch `respondToRequest` passes to `user_connections.update`. -/
structure ConnPatch where
  status : String
  recipient_id : String
  updated_at : Nat
deriving DecidableEq

/-- A row of the `notifications` collection (NotificationCenter's
`Notification` interface; `read` is stored as 0/1). -/
structure Notification where
  id : String
  user_id : String
  type : String
  title : String
  message : String
  data : Option String
  read : Nat
  created_at : Nat
deriving DecidableEq

/-- The record `respondToRequest` passes to `notifications.create`
(exactly the five fields of the source's object literal). -/
structure NotificationNew where
  user_id : String
  type : String
  title : String
  message : String
  data : Option String
deriving DecidableEq

/-- One external call performed by a handler, transcribed in program
order.  Email effects carry recipient and subject; the html/text
bodies are fixed presentational templates over the same data and are
not modelled. -/
inductive Effect where
  | createTaskRec (t : Task)
  | updateTaskRec (id : String) (p : TaskPatch) (updated_at : Nat)
  | createConnectionRec (c : ConnectionNew)
  | updateConnectionRec (id : String) (p : ConnPatch)
  | createNotificationRec (n : NotificationNew)
  | updateNotificationRec (id : String) (read : Nat)
  | emailSend (recipient subject : String)
deriving DecidableEq

instance {ε α : Type _} [DecidableEq ε] [DecidableEq α] : DecidableEq (Except ε α) :=
  fun x y =>
    match x, y with
    | .error a, .error b =>
        if h : a = b then isTrue (congrArg Except.error h)
        else isFalse (fun hc => h (Except.error.inj hc))
    | .ok a, .ok b =>
        if h : a = b then isTrue (congrArg Except.ok h)
        else isFalse (fun hc => h (Except.ok.inj hc))
    | .error _, .ok _ => isFalse (fun hc => Except.noConfusion hc)
    | .ok _, .error _ => isFalse (fun hc => Except.noConfusion hc)

/-- Counts `task_assigned` notification-creation effects. -/
def numTaskAssigned (effs : List Effect) : Nat :=
  effs.countP (fun e =>
    match e with
    | .createNotificationRec n => decide (n.type = "task_assigned")
    | _ => false)

/-- Counts `task_completed` notification-creation effects. -/
def numTaskCompleted (effs : List Effect) : Nat :=
  effs.countP (fun e =>
    match e with
    | .createNotificationRec n => decide (n.type = "task_completed")
    | _ => false)

/-- Counts notification-creation effects of any type. -/
def numNotifCreates (effs : List Effect) : Nat :=
  effs.countP (fun e =>
    match e with
    | .createNotificationRec _ => true
    | _ => false)

/-- Counts outbound-email effects. -/
def numEmails (effs : List Effect) : Nat :=
  effs.countP (fun e =>
    match e with
    | .emailSend _ _ => true
    | _ => false)

/-- The prefix of an email before the first `@`, the whole string when
none; models the member loop's `memberEmail.split('@')[0]`. -/
def displayNameOf (email : String) : String :=
  ⟨email.data.takeWhile (fun ch => ch ≠ '@')⟩

/-- Whether a connection row matches `loadTeamData`'s store query
`OR [requester_id = u, recipient_id = u]`. -/
def touchesUser (u : String) (c : Connection) : Bool :=
  decide (c.requester_id = u) || decide (c.recipient_id = some u)

/-- The counterpart id picked in `loadTeamData`'s member loop:
`conn.requester_id === user.id ? conn.recipient_id : conn.requester_id`. -/
def counterpartId (u : String) (c : Connection) : Option String :=
  if c.requester_id = u then c.recipient_id else some c.requester_id

/-- The counterpart email picked in `loadTeamData`'s member loop. -/
def counterpartEmail (u : String) (c : Connection) : Option String :=
  if c.requester_id = u then c.recipient_email else c.requester_email

/-- The contribution of one connection row to user `u`'s team-member
list: the row must come back from the OR query, be `accepted`, and the
loop pushes a member only under `if (memberId && memberEmail)`.  The
same derivation appears verbatim in TeamPage.loadTeamData and in the
TaskDialog variant's loadTeamMembers. -/
def teamMemberOf (u : String) (c : Connection) : Option TeamMember :=
  if touchesUser u c && decide (c.status = "accepted") then
    let memberId := counterpartId u c
    let memberEmail := counterpartEmail u c
    if jsTruthy memberId && jsTruthy memberEmail then
      some { id := memberId.getD "",
             email := memberEmail.getD "",
             display_name := displayNameOf (memberEmail.getD "") }
    else none
  else none

/-- The derived team-member list for user `u` over connection store
`store` (spec operation `listTeamMembers`).  Order is non-normative
per the spec, so the store's `orderBy created_at desc` is not
re-applied here. -/
def listTeamMembers (u : String) (store : List Connection) : List TeamMember :=
  store.filterMap (teamMemberOf u)

/-- Multiplicity of member id `mid` in `u`'s derived team-member list. -/
def memberIdCount (u : String) (store : List Connection) (mid : String) : Nat :=
  (listTeamMembers u store).countP (fun m => decide (m.id = mid))

/-- Whether one connection row contributes a member carrying id `mid`
to user `u`'s derived team-member list. -/
def contribTo (u mid : String) (c : Connection) : Bool :=
  ((teamMemberOf u c).map (fun m => decide (m.id = mid))).getD false

/-- Error outcomes of `sendInvite`'s two early returns: the silent
`if (!inviteEmail.trim()) return` guard, and the duplicate-connection
toast-and-return. -/
inductive InviteError where
  | EmptyEmail
  | DuplicateInvite
deriving DecidableEq

/-- The connection row that materialises in the store after
`sendInvite`'s `user_connections.create` call; `newId` and `now` stand
for the server-assigned id and timestamps. -/
def newConnection (uid uemail email newId : String) (now : Nat) : Connection :=
  { id := newId
    requester_id := uid
    recipient_id := none
    status := "pending"
    requester_email := some uemail
    recipient_email := some email
    created_at := now
    updated_at := now }

/-- TeamPage.sendInvite for requester `(uid, uemail)` inviting `email`:
guard on trimmed-empty email; list existing connections with
`AND [requester_id = uid, recipient_email = email]` and bail out when
any exist, regardless of their status; otherwise create the pending
connection and request the invitation email. -/
def sendInvite (uid uemail email : String) (store : List Connection)
    (newId : String) (now : Nat) :
    Except InviteError (List Connection × List Effect) :=
  if (strTrim email).isEmpty then .error .EmptyEmail
  else
    let existingConnection := store.filter (fun c =>
      decide (c.requester_id = uid) && decide (c.recipient_email = some email))
    if existingConnection.length > 0 then .error .DuplicateInvite
    else
      .ok (store ++ [newConnection uid uemail email newId now],
        [ .createConnectionRec
            { requester_id := uid, recipient_email := email,
              requester_email := uemail, status := "pending" },
          .emailSend email (uemail ++ " invited you to join their TaskFlow team") ])

/-- The row update `respondToRequest` applies to the targeted
connection: status overwritten from the `accept` flag, recipient id
back-filled with the responder, timestamp refreshed.  There is no
status precondition in the source. -/
def respondUpdate (userId : String) (accept : Bool) (now : Nat)
    (c : Connection) : Connection :=
  { c with status := if accept then "accepted" else "rejected",
           recipient_id := some userId,
           updated_at := now }

/-- TeamPage.respondToRequest for responder `(userId, userEmail)`:
unconditionally update the connection row, then, on accept, create a
`connection_accepted` notification for the requester provided the
connection is found in the component's `pendingRequests` local state.
The `data` field carries the source's `JSON.stringify` payload. -/
def respondToRequest (userId userEmail : String)
    (pendingRequests : List Connection) (store : List Connection)
    (connectionId : String) (accept : Bool) (now : Nat) :
    List Connection × List Effect :=
  let store2 := store.map (fun c =>
    if c.id = connectionId then respondUpdate userId accept now c else c)
  let updEff : Effect := .updateConnectionRec connectionId
    { status := if accept then "accepted" else "rejected",
      recipient_id := userId, updated_at := now }
  let notifEffs : List Effect :=
    if accept then
      match pendingRequests.find? (fun req => decide (req.id = connectionId)) with
      | some conn =>
          [ .createNotificationRec
              { user_id := conn.requester_id,
                type := "connection_accepted",
                title := "Connection Accepted",
                message := userEmail ++ " accepted your team invitation",
                data := some ("\x7b\"connection_id\":\"" ++ connectionId ++ "\"\x7d") } ]
      | none => []
    else []
  (store2, updEff :: notifEffs)

/-- TasksPage.handleCreateTask: builds the task row with JavaScript
`||` defaulting (`status || 'todo'`, `priority || 'medium'`,
`description || ''`, `due_date || null`, `project_id || null`) and
performs exactly one external call, `tasks.create`.  The payload's
assignee fields are not copied into the created row, and no
notification or email call occurs.  `newId`/`now` stand for
`task_${Date.now()}` and the current timestamp. -/
def handleCreateTask (userId : String) (p : TaskPayload) (newId : String)
    (now : Nat) : Task × List Effect :=
  let t : Task :=
    { id := newId
      title := p.title
      description := some (jsOrStr p.description "")
      status := jsOrStr p.status "todo"
      priority := jsOrStr p.priority "medium"
      due_date := jsOrNull p.due_date
      project_id := jsOrNull p.project_id
      user_id := userId
      assignee_id := none
      assignee_email := none
      created_at := now
      updated_at := now }
  (t, [Effect.createTaskRec t])

/-- TasksPage.handleUpdateTask: performs exactly one external call,
`tasks.update(taskId, {...updates, updated_at: now})`, then patches
the local list.  No notification or email call occurs; the handler
does not read the prior status nor any actor identity. -/
def handleUpdateTask (taskId : String) (updates : TaskPatch) (now : Nat) :
    List Effect :=
  [Effect.updateTaskRec taskId updates now]

/-- TasksPage.handleStatusChange delegates to `handleUpdateTask` with a
status-only patch. -/
def handleStatusChange (taskId : String) (newStatus : String) (now : Nat) :
    List Effect :=
  handleUpdateTask taskId
    { title := none, description := none, status := some newStatus,
      priority := none, due_date := none, project_id := none,
      assignee_id := none, assignee_email := none } now

/-- Validation failure of the createTask operation. -/
inductive CreateError where
  | ValidationError
deriving DecidableEq

/-- The spec's `createTask` operation: TaskDialog.handleSave's
`if (!title.trim()) return` guard (the save button is likewise
disabled on a trimmed-empty title) composed with
TasksPage.handleCreateTask.  A payload is "empty-titled" exactly when
its title trims to the empty string. -/
def createTask (userId : String) (p : TaskPayload) (newId : String)
    (now : Nat) : Except CreateError (Task × List Effect) :=
  if (strTrim p.title).isEmpty then .error .ValidationError
  else .ok (handleCreateTask userId p newId now)

/-- The effects of a `createTask` call (none when validation fails). -/
def createTaskEffects (userId : String) (p : TaskPayload) (newId : String)
    (now : Nat) : List Effect :=
  match createTask userId p newId now with
  | .error _ => []
  | .ok (_, effs) => effs

/-- TasksPage's `filteredTasks` predicate for one task: case-insensitive
substring match of the search query against the title, or against the
description when present (`task.description?.toLowerCase().includes`),
conjoined with the status and priority filters where `"all"` is the
wildcard. -/
def taskMatches (searchQuery statusFilter priorityFilter : String)
    (t : Task) : Bool :=
  let matchesSearch :=
    jsIncludes (strLower t.title) (strLower searchQuery) ||
      (match t.description with
       | some d => jsIncludes (strLower d) (strLower searchQuery)
       | none => false)
  let matchesStatus :=
    decide (statusFilter = "all") || decide (t.status = statusFilter)
  let matchesPriority :=
    decide (priorityFilter = "all") || decide (t.priority = priorityFilter)
  matchesSearch && matchesStatus && matchesPriority

/-- TasksPage's `filteredTasks`: `tasks.filter(...)`. -/
def filteredTasks (tasks : List Task)
    (searchQuery statusFilter priorityFilter : String) : List Task :=
  tasks.filter (taskMatches searchQuery statusFilter priorityFilter)

/-- Case-insensitive substring containment, written from the spec's
words for the refinement comparison with `taskMatches`. -/
def ContainsCI (hay needle : String) : Prop :=
  (strLower needle).data <:+: (strLower hay).data

/-- The spec's description of the `filterTasks` predicate, written from
its words: title or description contains the search text
case-insensitively, AND status equals the filter (with `"all"`
matching everything), AND likewise for priority. -/
def SpecFilterPred (searchQuery statusFilter priorityFilter : String)
    (t : Task) : Prop :=
  (ContainsCI t.title searchQuery ∨
    ∃ d, t.description = some d ∧ ContainsCI d searchQuery) ∧
  (statusFilter = "all" ∨ t.status = statusFilter) ∧
  (priorityFilter = "all" ∨ t.priority = priorityFilter)

/-- Unread count of a notification list: the source counts entries with
`Number(n.read) === 0`. -/
def unreadOf (l : List Notification) : Nat :=
  l.countP (fun n => decide (n.read = 0))

/-- Most-recent-first ordering on notifications. -/
def notifMoreRecent (a b : Notification) : Prop :=
  b.created_at ≤ a.created_at

instance : DecidableRel notifMoreRecent := fun a b => Nat.decLe b.created_at a.created_at

instance : IsTotal Notification notifMoreRecent :=
  ⟨fun a b => Nat.le_total b.created_at a.created_at⟩

instance : IsTrans Notification notifMoreRecent :=
  ⟨fun _ _ _ h1 h2 => Nat.le_trans h2 h1⟩

/-- The store query `loadNotifications` issues:
`where {user_id}, orderBy {created_at: 'desc'}, limit 50`.  Modelled
from the spec's external record-store contract (equality filter, sort,
limit), with a sort standing in for the store's ordering. -/
def notifQuery (userId : String) (db : List Notification) :
    List Notification :=
  (List.insertionSort notifMoreRecent
    (db.filter (fun n => decide (n.user_id = userId)))).take 50

/-- NotificationCenter's local state: the loaded list and the
`unreadCount` counter. -/
structure FeedState where
  notifications : List Notification
  unreadCount : Nat
deriving DecidableEq

/-- NotificationCenter.loadNotifications: fetch the query result, store
it, and set `unreadCount` to the number of returned rows with
`read = 0`. -/
def loadNotifications (userId : String) (db : List Notification) :
    FeedState :=
  let l := notifQuery userId db
  { notifications := l, unreadCount := unreadOf l }

/-- NotificationCenter.markAsRead: one `notifications.update` call,
then the local list is patched to `read = 1` on the matching id and
the counter set to `Math.max(0, prev - 1)` (truncated subtraction on
naturals), whether or not the notification was unread. -/
def markAsRead (s : FeedState) (nid : String) : FeedState × List Effect :=
  ({ notifications := s.notifications.map (fun n =>
       if n.id = nid then { n with read := 1 } else n),
     unreadCount := s.unreadCount - 1 },
   [Effect.updateNotificationRec nid 1])

/-- NotificationCenter.markAllAsRead: one `notifications.update` call
per currently-unread row, then the whole local list is set read and
the counter zeroed. -/
def markAllAsRead (s : FeedState) : FeedState × List Effect :=
  ({ notifications := s.notifications.map (fun n => { n with read := 1 }),
     unreadCount := 0 },
   (s.notifications.filter (fun n => decide (n.read = 0))).map
     (fun n => Effect.updateNotificationRec n.id 1))

/-- One Notification Feed operation of the spec's load / markRead /
markAllRead vocabulary; `load` carries the store contents at fetch
time. -/
inductive FeedOp where
  | load (db : List Notification)
  | markRead (nid : String)
  | markAllRead
deriving DecidableEq

/-- One step of the feed's state machine. -/
def stepFeed (userId : String) (s : FeedState) : FeedOp → FeedState
  | .load db => loadNotifications userId db
  | .markRead nid => (markAsRead s nid).1
  | .markAllRead => (markAllAsRead s).1

/-- Runs a sequence of feed operations. -/
def runFeed (userId : String) : FeedState → List FeedOp → FeedState
  | s, [] => s
  | s, op :: rest => runFeed userId (stepFeed userId s op) rest

/-- The consistency invariant of the claim: the counter equals the
number of currently-loaded unread notifications. -/
def consistentFeed (s : FeedState) : Prop :=
  s.unreadCount = unreadOf s.notifications

instance (s : FeedState) : Decidable (consistentFeed s) :=
  inferInstanceAs (Decidable (s.unreadCount = unreadOf s.notifications))

/-- Validity of one feed operation in a state: `markRead` must target
an id carried by exactly one loaded notification, and that one must be
unread — which is what the component guarantees, since the click
handler fires only `Number(notification.read) === 0 &&
markAsRead(notification.id)` on store-unique ids. -/
def validOp (s : FeedState) : FeedOp → Bool
  | .load _ => true
  | .markAllRead => true
  | .markRead nid =>
      decide (s.notifications.countP (fun n => decide (n.id = nid)) = 1) &&
      s.notifications.all (fun n => !(decide (n.id = nid)) || decide (n.read = 0))

/-- Validity of a whole operation sequence, checked state by state. -/
def validTrace (userId : String) : FeedState → List FeedOp → Bool
  | _, [] => true
  | s, op :: rest => validOp s op && validTrace userId (stepFeed userId s op) rest

/-- The feed's initial component state. -/
def initFeed : FeedState := { notifications := [], unreadCount := 0 }

/-- Concrete input: the payload an owner submits with a cross-user
assignee, as produced by the assignee-aware TaskDialog variant. -/
def examplePayloadAssigned : TaskPayload :=
  { title := "T", description := none, status := none, priority := none,
    due_date := none, project_id := none,
    assignee_id := some "bob", assignee_email := some "bob@x.com" }

/-- Concrete input: Scenario A payload, explicit high priority, no
assignee. -/
def examplePayloadHigh : TaskPayload :=
  { title := "Write spec", description := none, status := none,
    priority := some "high", due_date := none, project_id := none,
    assignee_id := none, assignee_email := none }

/-- Concrete input: an already-accepted connection from alice to bob
with both identities filled in. -/
def exampleAccepted : Connection :=
  { id := "c1", requester_id := "alice", recipient_id := some "bob",
    status := "accepted", requester_email := some "alice@x.com",
    recipient_email := some "bob@x.com", created_at := 0, updated_at := 0 }

/-- Concrete input: a fresh pending invitation from alice to bob, the
recipient id not yet back-filled. -/
def examplePending : Connection :=
  { id := "c1", requester_id := "alice", recipient_id := none,
    status := "pending", requester_email := some "alice@x.com",
    recipient_email := some "bob@x.com", created_at := 0, updated_at := 0 }

/-- Concrete input: an already-read notification of user u1. -/
def exampleNotifRead : Notification :=
  { id := "n1", user_id := "u1", type := "connection_accepted",
    title := "t", message := "m", data := none, read := 1, created_at := 2 }

/-- Concrete input: an unread notification of user u1. -/
def exampleNotifUnread : Notification :=
  { id := "n2", user_id := "u1", type := "task_assigned",
    title := "t", message := "m", data := none, read := 0, created_at := 1 }

/-- Concrete input: a two-row notification store for user u1. -/
def exampleFeedDb : List Notification := [exampleNotifRead, exampleNotifUnread]

/-- Concrete input: a reverse-direction accepted connection from bob to
alice, fully back-filled.  `sendInvite`'s duplicate check filters on
`requester_id = user.id AND recipient_email`, so alice inviting bob is
not blocked by this row. -/
def exampleReverseAccepted : Connection :=
  { id := "c0", requester_id := "bob", recipient_id := some "alice",
    status := "accepted", requester_email := some "bob@x.com",
    recipient_email := some "alice@x.com", created_at := 0, updated_at := 0 }

/-! Helper lemmas. -/

/-- Splitting a count along a second predicate. -/
theorem countP_split {a : Type _} (p q : a → Bool) (l : List a) :
    l.countP p =
      l.countP (fun x => p x && q x) + l.countP (fun x => p x && !q x) := by
  induction l with
  | nil => rfl
  | cons x l ih =>
      simp only [List.countP_cons, ih]
      cases hp : p x <;> cases hq : q x <;> simp <;> omega

/-- Counting over a `filterMap` as a count over the source list. -/
theorem countP_filterMap {a b : Type _} (g : a → Option b) (p : b → Bool)
    (l : List a) :
    (l.filterMap g).countP p =
      l.countP (fun x => ((g x).map p).getD false) := by
  induction l with
  | nil => rfl
  | cons x l ih =>
      cases h : g x <;>
        simp [List.filterMap_cons, h, List.countP_cons, ih]

/-- `memberIdCount` as a count of contributing connection rows. -/
theorem memberIdCount_eq (u mid : String) (store : List Connection) :
    memberIdCount u store mid = store.countP (contribTo u mid) :=
  countP_filterMap (teamMemberOf u) (fun m => decide (m.id = mid)) store

/-! Claim theorems. -/

/-- Claim C1, counterexample.  The claim asserts that a `createTask`
call whose payload carries an assignee different from the owner
creates exactly one `task_assigned` notification and requests one
outbound email.  At the concrete input: owner `alice`, payload
`examplePayloadAssigned` (title `T`, assignee `bob` with email
`bob@x.com`, `bob` differing from `alice`), the handler performs zero
notification-creation effects and zero email effects, so the count is
not one. -/
theorem createTask_assignment_notification_counterexample :
    numTaskAssigned (handleCreateTask "alice" examplePayloadAssigned "t1" 0).2 = 0 ∧
    numEmails (handleCreateTask "alice" examplePayloadAssigned "t1" 0).2 = 0 ∧
    ¬ numTaskAssigned (handleCreateTask "alice" examplePayloadAssigned "t1" 0).2 = 1 := by
  refine ⟨by decide, by decide, by decide⟩

/-- Claim C1, amended: `handleCreateTask` performs exactly one external
call, the `tasks.create` itself; it never creates any notification
(of type `task_assigned` or otherwise) and never requests an email,
whatever the payload and whoever the assignee is — the assignee fields
of the payload are not even copied into the created row.  The zero
half of the original claim (no `task_assigned` notification when the
assignee is omitted or equals the owner) is subsumed. -/
theorem createTask_never_notifies (userId : String) (p : TaskPayload)
    (newId : String) (now : Nat) :
    numTaskAssigned (handleCreateTask userId p newId now).2 = 0 ∧
    numNotifCreates (handleCreateTask userId p newId now).2 = 0 ∧
    numEmails (handleCreateTask userId p newId now).2 = 0 ∧
    numNotifCreates (createTaskEffects userId p newId now) = 0 ∧
    numEmails (createTaskEffects userId p newId now) = 0 ∧
    (handleCreateTask userId p newId now).1.assignee_id = none := by
  refine ⟨rfl, rfl, rfl, ?_, ?_, rfl⟩ <;>
    · unfold createTaskEffects createTask
      by_cases h : (strTrim p.title).isEmpty <;>
        simp [h, numNotifCreates, numEmails, handleCreateTask]

/-- Claim C2, counterexample.  The claim asserts that moving a task to
`done` from a non-done status, by an actor who is not the owner,
creates exactly one `task_completed` notification to the owner plus a
completion email.  Concrete scenario: a task `task1` with prior status
`todo` owned by `alice`; the assignee `bob` marks it done, which the
component routes through `handleStatusChange "task1" "done"`.  The
handler reads neither the prior status nor any actor identity and
performs zero notification and zero email effects, so the count is
not one. -/
theorem updateTask_done_notification_counterexample :
    numTaskCompleted (handleStatusChange "task1" "done" 5) = 0 ∧
    numEmails (handleStatusChange "task1" "done" 5) = 0 ∧
    ¬ numTaskCompleted (handleStatusChange "task1" "done" 5) = 1 := by
  refine ⟨by decide, by decide, by decide⟩

/-- Claim C2, amended: `handleUpdateTask` performs exactly one external
call, the `tasks.update` itself; it never creates a notification and
never requests an email, on any patch and hence on any status
transition.  The zero half of the original claim (no notification on
a done-to-done no-op or on transitions not ending in done) is
subsumed. -/
theorem updateTask_never_notifies (taskId : String) (updates : TaskPatch)
    (now : Nat) :
    numTaskCompleted (handleUpdateTask taskId updates now) = 0 ∧
    numNotifCreates (handleUpdateTask taskId updates now) = 0 ∧
    numEmails (handleUpdateTask taskId updates now) = 0 ∧
    (∀ s, numTaskCompleted (handleStatusChange taskId s now) = 0) := by
  exact ⟨rfl, rfl, rfl, fun _ => rfl⟩

/-- Claim C3, counterexample.  The claim asserts that `respond` on a
connection not in status `pending` fails with `InvalidTransition` and
leaves the record unchanged.  Concrete input: the store holds only
`exampleAccepted` (an already-accepted connection `c1`); `bob`
responds with `accept = false`.  `respondToRequest` has no failure
channel at all, and the store afterwards holds the row with status
overwritten to `rejected` — the record did change. -/
theorem respond_nonpending_mutates_counterexample :
    (respondToRequest "bob" "bob@x.com" [] [exampleAccepted] "c1" false 5).1 =
      [respondUpdate "bob" false 5 exampleAccepted] ∧
    (respondToRequest "bob" "bob@x.com" [] [exampleAccepted] "c1" false 5).1 ≠
      [exampleAccepted] ∧
    (respondUpdate "bob" false 5 exampleAccepted).status = "rejected" := by
  refine ⟨by decide, by decide, by decide⟩

/-- Claim C3, amended: `respondToRequest` checks no precondition on the
stored status: for every connection row matching the targeted id, the
row is unconditionally overwritten with status `accepted` or
`rejected` per the `accept` flag (back-filling the responder as
recipient), whatever its prior status — so a connection status is not
limited to changing once, and no `InvalidTransition` failure exists
(the function is total and effectful on every call). -/
theorem respond_overwrites_status (userId userEmail cid : String)
    (accept : Bool) (now : Nat) (pend store : List Connection)
    (c : Connection) (hmem : c ∈ store) (hcid : c.id = cid) :
    respondUpdate userId accept now c ∈
      (respondToRequest userId userEmail pend store cid accept now).1 ∧
    (respondUpdate userId accept now c).status =
      (if accept then "accepted" else "rejected") := by
  constructor
  · exact List.mem_map.2 ⟨c, hmem, by simp [hcid]⟩
  · rfl

/-- Claim C3, witness: the amended theorem applied to the concrete
already-accepted connection. -/
theorem respond_overwrites_status_witness :
    respondUpdate "bob" true 9 exampleAccepted ∈
      (respondToRequest "bob" "bob@x.com" [] [exampleAccepted] "c1" true 9).1 ∧
    (respondUpdate "bob" true 9 exampleAccepted).status =
      (if true then "accepted" else "rejected") :=
  respond_overwrites_status "bob" "bob@x.com" "c1" true 9 [] [exampleAccepted]
    exampleAccepted (by decide) (by decide)

/-- If an optional string is truthy, its value (defaulted to the empty
string) is non-empty. -/
theorem jsTruthy_getD_ne (o : Option String) (h : jsTruthy o = true) :
    o.getD "" ≠ "" := by
  cases o with
  | none => simp [jsTruthy] at h
  | some s =>
      simp only [jsTruthy, Bool.not_eq_true'] at h
      simp only [Option.getD_some]
      intro hc
      rw [hc] at h
      exact absurd h (by decide)

/-- Claim C4: first invite succeeds with a pending connection, second
invite (and any invite while a connection from this requester to this
recipient email exists, whatever its status) fails with
`DuplicateInvite` and creates nothing.  Emptiness of the recipient
email is the code's guard notion, `inviteEmail.trim()` being empty. -/
theorem invite_duplicate_guard (uid uemail email newId : String) (now : Nat)
    (store : List Connection)
    (hemail : (strTrim email).isEmpty = false)
    (hnone : ∀ c ∈ store, ¬(c.requester_id = uid ∧ c.recipient_email = some email)) :
    sendInvite uid uemail email store newId now =
      .ok (store ++ [newConnection uid uemail email newId now],
        [ .createConnectionRec
            { requester_id := uid, recipient_email := email,
              requester_email := uemail, status := "pending" },
          .emailSend email (uemail ++ " invited you to join their TaskFlow team") ]) ∧
    (newConnection uid uemail email newId now).status = "pending" ∧
    (∀ (store2 : List Connection) (newId2 : String) (now2 : Nat),
      (∃ c ∈ store2, c.requester_id = uid ∧ c.recipient_email = some email) →
      sendInvite uid uemail email store2 newId2 now2 = .error .DuplicateInvite) := by
  refine ⟨?_, rfl, ?_⟩
  · have hfil : store.filter (fun c =>
        decide (c.requester_id = uid) && decide (c.recipient_email = some email)) = [] := by
      rw [List.filter_eq_nil_iff]
      intro c hc
      simp only [Bool.and_eq_true, decide_eq_true_eq, not_and]
      intro h1 h2
      exact hnone c hc ⟨h1, h2⟩
    simp [sendInvite, hemail, hfil]
  · rintro store2 newId2 now2 ⟨c, hc, h1, h2⟩
    have hm : c ∈ store2.filter (fun c =>
        decide (c.requester_id = uid) && decide (c.recipient_email = some email)) :=
      List.mem_filter.2 ⟨hc, by simp [h1, h2]⟩
    have hlen : 0 < (store2.filter (fun c =>
        decide (c.requester_id = uid) && decide (c.recipient_email = some email))).length :=
      List.length_pos.2 (List.ne_nil_of_mem hm)
    simp [sendInvite, hemail, hlen]

/-- Claim C4, witness: alice invites bob on an empty store, then again
on the store holding the created pending connection. -/
theorem invite_duplicate_guard_witness :
    sendInvite "alice" "alice@x.com" "bob@x.com" [] "c1" 0 =
      .ok ([newConnection "alice" "alice@x.com" "bob@x.com" "c1" 0],
        [ .createConnectionRec
            { requester_id := "alice", recipient_email := "bob@x.com",
              requester_email := "alice@x.com", status := "pending" },
          .emailSend "bob@x.com" "alice@x.com invited you to join their TaskFlow team" ]) ∧
    sendInvite "alice" "alice@x.com" "bob@x.com"
      [newConnection "alice" "alice@x.com" "bob@x.com" "c1" 0] "c2" 1 =
      .error .DuplicateInvite := by
  have h := invite_duplicate_guard "alice" "alice@x.com" "bob@x.com" "c1" 0 []
    (by decide) (by decide)
  exact ⟨by simpa using h.1,
    h.2.2 [newConnection "alice" "alice@x.com" "bob@x.com" "c1" 0] "c2" 1
      ⟨newConnection "alice" "alice@x.com" "bob@x.com" "c1" 0, by decide, by decide, by decide⟩⟩

/-- Claim C8: with a non-empty title (the code's notion: non-empty
after trimming), `createTask` persists the task with status defaulted
to `todo` and priority defaulted to `medium` when the payload omits
them, keeping explicit non-empty values (JavaScript `||` treats an
explicit empty string like an omission); with an empty title it fails
with `ValidationError` and performs no external call at all. -/
theorem createTask_defaults (userId : String) (p : TaskPayload)
    (newId : String) (now : Nat) :
    ((strTrim p.title).isEmpty = false →
      ∃ t effs, createTask userId p newId now = .ok (t, effs) ∧
        (p.status = none → t.status = "todo") ∧
        (p.priority = none → t.priority = "medium") ∧
        (∀ s, p.status = some s → s.isEmpty = false → t.status = s) ∧
        (∀ s, p.priority = some s → s.isEmpty = false → t.priority = s) ∧
        effs = [Effect.createTaskRec t]) ∧
    ((strTrim p.title).isEmpty = true →
      createTask userId p newId now = .error .ValidationError ∧
      createTaskEffects userId p newId now = []) := by
  constructor
  · intro h
    refine ⟨(handleCreateTask userId p newId now).1,
      (handleCreateTask userId p newId now).2, ?_, ?_, ?_, ?_, ?_, rfl⟩
    · simp [createTask, h]
    · intro hs; simp [handleCreateTask, jsOrStr, hs]
    · intro hp; simp [handleCreateTask, jsOrStr, hp]
    · intro s hs hne; simp [handleCreateTask, jsOrStr, hs, hne]
    · intro s hs hne; simp [handleCreateTask, jsOrStr, hs, hne]
  · intro h
    exact ⟨by simp [createTask, h], by simp [createTaskEffects, createTask, h]⟩

/-- Claim C8, witness: Scenario A, `Write spec` at explicit high
priority with everything else omitted. -/
theorem createTask_defaults_witness :
    ∃ t effs, createTask "alice" examplePayloadHigh "t1" 0 = .ok (t, effs) ∧
      (examplePayloadHigh.status = none → t.status = "todo") ∧
      (examplePayloadHigh.priority = none → t.priority = "medium") ∧
      (∀ s, examplePayloadHigh.status = some s → s.isEmpty = false → t.status = s) ∧
      (∀ s, examplePayloadHigh.priority = some s → s.isEmpty = false → t.priority = s) ∧
      effs = [Effect.createTaskRec t] :=
  (createTask_defaults "alice" examplePayloadHigh "t1" 0).1 (by decide)

/-- Claim C10: the derived team-member list only ever contains entries
with a non-empty counterpart id and a non-empty counterpart email; a
connection whose counterpart identity is incomplete contributes no
member, and in particular an accepted connection whose recipient id
has not been back-filled is invisible in the requester's list. -/
theorem teamMembers_identity_complete (u : String) (store : List Connection) :
    (∀ m ∈ listTeamMembers u store, m.id ≠ "" ∧ m.email ≠ "") ∧
    (∀ c : Connection,
      jsTruthy (counterpartId u c) = false ∨ jsTruthy (counterpartEmail u c) = false →
      teamMemberOf u c = none) ∧
    (∀ c : Connection, c.requester_id = u → c.recipient_id = none →
      teamMemberOf u c = none) := by
  refine ⟨?_, ?_, ?_⟩
  · intro m hm
    obtain ⟨c, -, hc⟩ := List.mem_filterMap.1 hm
    unfold teamMemberOf at hc
    by_cases h1 : touchesUser u c && decide (c.status = "accepted")
    · rw [if_pos h1] at hc
      by_cases h2 : jsTruthy (counterpartId u c) && jsTruthy (counterpartEmail u c)
      · rw [if_pos h2] at hc
        obtain ⟨hid, hmail⟩ := Bool.and_eq_true_iff.1 h2
        cases hc
        exact ⟨jsTruthy_getD_ne _ hid, jsTruthy_getD_ne _ hmail⟩
      · rw [if_neg h2] at hc
        exact absurd hc (by simp)
    · rw [if_neg h1] at hc
      exact absurd hc (by simp)
  · intro c h
    rcases h with h | h <;>
      by_cases h1 : touchesUser u c && decide (c.status = "accepted") <;>
        simp [teamMemberOf, h1, h]
  · intro c h1 h2
    have hfalse : jsTruthy (counterpartId u c) = false := by
      simp [counterpartId, h1, h2, jsTruthy]
    by_cases hcond : touchesUser u c && decide (c.status = "accepted") <;>
      simp [teamMemberOf, hcond, hfalse]

/-- Claim C10, witness: the accepted, fully back-filled alice-bob
connection yields the member bob, whose id and email are non-empty. -/
theorem teamMembers_identity_complete_witness :
    (⟨"bob", "bob@x.com", "bob"⟩ : TeamMember).id ≠ "" ∧
    (⟨"bob", "bob@x.com", "bob"⟩ : TeamMember).email ≠ "" :=
  (teamMembers_identity_complete "alice" [exampleAccepted]).1
    ⟨"bob", "bob@x.com", "bob"⟩ (by decide)

/-- A load always restores the counter invariant. -/
theorem consistent_load (userId : String) (db : List Notification) :
    consistentFeed (loadNotifications userId db) := rfl

/-- `markAllAsRead` zeroes the counter and leaves no unread rows. -/
theorem consistent_markAllAsRead (s : FeedState) :
    consistentFeed (markAllAsRead s).1 := by
  unfold consistentFeed markAllAsRead unreadOf
  simp only [List.countP_map]
  rw [List.countP_congr (q := fun _ => false) (by intro n hn; simp [Function.comp])]
  simp [List.countP_false]

/-- `markAsRead` preserves the counter invariant when its target id is
carried by exactly one loaded notification and that one is unread. -/
theorem consistent_markAsRead (s : FeedState) (nid : String)
    (hcons : consistentFeed s)
    (hcount : s.notifications.countP (fun n => decide (n.id = nid)) = 1)
    (hall : ∀ n ∈ s.notifications, n.id = nid → n.read = 0) :
    consistentFeed (markAsRead s nid).1 := by
  unfold consistentFeed unreadOf at hcons
  unfold consistentFeed markAsRead unreadOf
  simp only [List.countP_map]
  rw [List.countP_congr
    (q := fun n => decide (n.read = 0) && !decide (n.id = nid))
    (by
      intro n hn
      by_cases h : n.id = nid <;> simp [h, Function.comp])]
  have hsplit := countP_split (fun n => decide (n.read = 0))
    (fun n => decide (n.id = nid)) s.notifications
  have h1 : s.notifications.countP (fun n => decide (n.read = 0) && decide (n.id = nid)) =
      s.notifications.countP (fun n => decide (n.id = nid)) := by
    apply List.countP_congr
    intro n hn
    by_cases h : n.id = nid
    · simp [h, hall n hn h]
    · simp [h]
  rw [hcons]
  omega

/-- Every valid step preserves the counter invariant. -/
theorem consistent_step (userId : String) (s : FeedState) (op : FeedOp)
    (hcons : consistentFeed s) (hvalid : validOp s op = true) :
    consistentFeed (stepFeed userId s op) := by
  cases op with
  | load db => exact consistent_load userId db
  | markAllRead => exact consistent_markAllAsRead s
  | markRead nid =>
      unfold validOp at hvalid
      rw [Bool.and_eq_true, decide_eq_true_eq] at hvalid
      refine consistent_markAsRead s nid hcons hvalid.1 ?_
      intro n hn h
      have := (List.all_eq_true.1 hvalid.2) n hn
      simpa [h] using this

/-- The counter invariant holds along every valid trace. -/
theorem feed_invariant_aux (userId : String) (ops : List FeedOp) :
    ∀ s : FeedState, consistentFeed s → validTrace userId s ops = true →
      consistentFeed (runFeed userId s ops) := by
  induction ops with
  | nil => intro s h _; exact h
  | cons op rest ih =>
      intro s hcons hvalid
      rw [validTrace, Bool.and_eq_true] at hvalid
      exact ih _ (consistent_step userId s op hcons hvalid.1) hvalid.2

/-- Claim C6, counterexample.  The claim asserts the counter always
equals the number of loaded unread notifications, `markRead` on an
already-read notification being a harmless no-op.  Concrete input:
user u1 loads a store holding the already-read n1 and the unread n2,
then calls `markRead "n1"`.  The loaded list is unchanged, but the
counter is unconditionally decremented from 1 to 0 while one loaded
notification is still unread — the invariant is broken. -/
theorem feed_unread_counterexample :
    ¬ consistentFeed (runFeed "u1" initFeed [.load exampleFeedDb, .markRead "n1"]) ∧
    (runFeed "u1" initFeed [.load exampleFeedDb, .markRead "n1"]).notifications =
      (runFeed "u1" initFeed [.load exampleFeedDb]).notifications ∧
    (runFeed "u1" initFeed [.load exampleFeedDb, .markRead "n1"]).unreadCount = 0 ∧
    unreadOf (runFeed "u1" initFeed [.load exampleFeedDb, .markRead "n1"]).notifications = 1 := by
  refine ⟨by decide, by decide, by decide, by decide⟩

/-- Claim C6, amended: the equality of `unreadCount` with the number
of currently-loaded unread notifications holds along every sequence of
load / markRead / markAllRead operations in which each markRead
targets an id carried by exactly one currently-loaded notification
that is still unread — exactly what the component enforces through its
click guard.  `markRead` on an already-read notification leaves the
loaded notifications unchanged, but it decrements the counter and so
breaks the equality (see the counterexample); it is not a complete
no-op. -/
theorem feed_unread_invariant (userId : String) (ops : List FeedOp)
    (s s2 : FeedState) (nid : String)
    (hcons : consistentFeed s) (hvalid : validTrace userId s ops = true)
    (hread : ∀ n ∈ s2.notifications, n.id = nid → n.read = 1) :
    consistentFeed (runFeed userId s ops) ∧
    (markAsRead s2 nid).1.notifications = s2.notifications := by
  refine ⟨feed_invariant_aux userId ops s hcons hvalid, ?_⟩
  show s2.notifications.map _ = s2.notifications
  have hid : ∀ n ∈ s2.notifications,
      (if n.id = nid then { n with read := 1 } else n) = n := by
    intro n hn
    by_cases h : n.id = nid
    · rw [if_pos h]
      have hr := hread n hn h
      cases n
      simp_all
    · rw [if_neg h]
  calc s2.notifications.map (fun n => if n.id = nid then { n with read := 1 } else n)
      = s2.notifications.map id := List.map_congr_left hid
    _ = s2.notifications := List.map_id _

/-- Claim C6, witness: a valid trace (load, markRead of the unread n2,
markAllRead) stays consistent, and markRead of the already-read n1
leaves the loaded list unchanged. -/
theorem feed_unread_invariant_witness :
    consistentFeed (runFeed "u1" initFeed
      [.load exampleFeedDb, .markRead "n2", .markAllRead]) ∧
    (markAsRead (loadNotifications "u1" exampleFeedDb) "n1").1.notifications =
      (loadNotifications "u1" exampleFeedDb).notifications :=
  feed_unread_invariant "u1" [.load exampleFeedDb, .markRead "n2", .markAllRead]
    initFeed (loadNotifications "u1" exampleFeedDb) "n1"
    (by decide) (by decide) (by decide)

/-- Claim C7: `loadNotifications` returns only the user's
notifications, ordered most-recent-first, at most 50 of them, with
`unreadCount` equal to the number of returned rows with `read = 0`;
and any notification of the user left out is no more recent than every
returned one (the returned rows are the most recent ones). -/
theorem loadNotifications_spec (userId : String) (db : List Notification) :
    (∀ n ∈ (loadNotifications userId db).notifications, n.user_id = userId) ∧
    List.Sorted notifMoreRecent (loadNotifications userId db).notifications ∧
    (loadNotifications userId db).notifications.length ≤ 50 ∧
    (loadNotifications userId db).unreadCount =
      unreadOf (loadNotifications userId db).notifications ∧
    (∀ n ∈ db, n.user_id = userId →
      n ∉ (loadNotifications userId db).notifications →
      ∀ m ∈ (loadNotifications userId db).notifications,
        n.created_at ≤ m.created_at) := by
  have hnot : (loadNotifications userId db).notifications =
      (List.insertionSort notifMoreRecent
        (db.filter (fun n => decide (n.user_id = userId)))).take 50 := rfl
  refine ⟨?_, ?_, ?_, rfl, ?_⟩
  · intro n hn
    rw [hnot] at hn
    have h1 := List.mem_of_mem_take hn
    have h2 := (List.perm_insertionSort notifMoreRecent _).mem_iff.1 h1
    simpa using (List.mem_filter.1 h2).2
  · rw [hnot]
    exact List.Pairwise.sublist (List.take_sublist 50 _)
      (List.sorted_insertionSort notifMoreRecent _)
  · rw [hnot]
    exact List.length_take_le 50 _
  · intro n hn hu hnotin m hm
    have hfl : n ∈ db.filter (fun x => decide (x.user_id = userId)) :=
      List.mem_filter.2 ⟨hn, by simp [hu]⟩
    have hsort : n ∈ List.insertionSort notifMoreRecent
        (db.filter (fun x => decide (x.user_id = userId))) :=
      (List.perm_insertionSort notifMoreRecent _).mem_iff.2 hfl
    have hspl := List.take_append_drop 50 (List.insertionSort notifMoreRecent
      (db.filter (fun x => decide (x.user_id = userId))))
    have hpw : List.Pairwise notifMoreRecent
        ((List.insertionSort notifMoreRecent
          (db.filter (fun x => decide (x.user_id = userId)))).take 50 ++
         (List.insertionSort notifMoreRecent
          (db.filter (fun x => decide (x.user_id = userId)))).drop 50) := by
      rw [hspl]
      exact List.sorted_insertionSort notifMoreRecent _
    have hdrop : n ∈ (List.insertionSort notifMoreRecent
        (db.filter (fun x => decide (x.user_id = userId)))).drop 50 := by
      rcases List.mem_append.1 (by rw [hspl]; exact hsort) with h | h
      · rw [hnot] at hnotin
        exact absurd h hnotin
      · exact h
    rw [hnot] at hm
    exact (List.pairwise_append.1 hpw).2.2 m hm n hdrop

/-- Claim C7, witness: the two-row store for user u1. -/
theorem loadNotifications_spec_witness :
    exampleNotifRead.user_id = "u1" ∧
    (loadNotifications "u1" exampleFeedDb).unreadCount =
      unreadOf (loadNotifications "u1" exampleFeedDb).notifications :=
  ⟨(loadNotifications_spec "u1" exampleFeedDb).1 exampleNotifRead (by decide),
   (loadNotifications_spec "u1" exampleFeedDb).2.2.2.1⟩

/-- Claim C9: `filteredTasks` is a pure filter keeping exactly the
tasks whose title, or description when present, contains the search
text case-insensitively, whose status equals the status filter (with
`all` as wildcard), and whose priority equals the priority filter
(with `all` as wildcard) — stated against `SpecFilterPred`, the
predicate written from the spec's words. -/
theorem filteredTasks_spec (tasks : List Task)
    (searchQuery statusFilter priorityFilter : String) (t : Task) :
    t ∈ filteredTasks tasks searchQuery statusFilter priorityFilter ↔
      t ∈ tasks ∧ SpecFilterPred searchQuery statusFilter priorityFilter t := by
  rw [filteredTasks, List.mem_filter]
  refine and_congr Iff.rfl ?_
  unfold taskMatches SpecFilterPred ContainsCI jsIncludes
  cases hd : t.description with
  | none => simp [hd, and_assoc]
  | some d => simp [hd, and_assoc]

/-- Claim C5, counterexample.  The claim asserts that after
`respond(c, recipient, accept=true)` on a pending connection c each
party appears exactly once in the other's team-member list.  Concrete
input: the store holds `exampleReverseAccepted` (an accepted
connection bob to alice, which `sendInvite`'s direction-sensitive
duplicate check never blocks when alice later invites bob) together
with `examplePending` (alice's pending invitation to bob); bob
accepts.  The member loop pushes one entry per accepted connection
with no dedup, so each party now appears twice in the other's derived
list, not exactly once. -/
theorem respond_accept_team_symmetry_counterexample :
    memberIdCount "alice"
      (respondToRequest "bob" "bob@x.com" [examplePending]
        [exampleReverseAccepted, examplePending] "c1" true 7).1 "bob" = 2 ∧
    memberIdCount "bob"
      (respondToRequest "bob" "bob@x.com" [examplePending]
        [exampleReverseAccepted, examplePending] "c1" true 7).1 "alice" = 2 ∧
    ¬ memberIdCount "alice"
      (respondToRequest "bob" "bob@x.com" [examplePending]
        [exampleReverseAccepted, examplePending] "c1" true 7).1 "bob" = 1 := by
  refine ⟨by decide, by decide, by decide⟩

/-- Claim C5, amended: responding accept to a pending connection makes
each party appear exactly once in the other's derived team-member
list, provided the targeted row is the only connection in the store
contributing a member linking the two users — the guard the claim is
missing, since a reverse-direction connection between the same pair is
never blocked by the duplicate check and would contribute a second
entry (see the counterexample).  The stored identities must be
well-formed: non-empty ids and emails, distinct parties, store ids
unique. -/
theorem respond_accept_team_symmetry
    (rid remail bid bemail cid : String) (now : Nat)
    (pend store : List Connection) (c : Connection)
    (hmem : c ∈ store) (hnodup : store.Nodup)
    (hcid : c.id = cid) (_hstatus : c.status = "pending")
    (hreq : c.requester_id = rid) (hreqmail : c.requester_email = some remail)
    (hrecmail : c.recipient_email = some bemail)
    (hbid : bid.isEmpty = false) (hbemail : bemail.isEmpty = false)
    (hrid : rid.isEmpty = false) (hremail : remail.isEmpty = false)
    (hdiff : rid ≠ bid)
    (huniqid : ∀ x ∈ store, x ≠ c → x.id ≠ cid)
    (hother : ∀ x ∈ store, x ≠ c →
      contribTo rid bid x = false ∧ contribTo bid rid x = false) :
    memberIdCount rid
      (respondToRequest bid bemail pend store cid true now).1 bid = 1 ∧
    memberIdCount bid
      (respondToRequest bid bemail pend store cid true now).1 rid = 1 := by
  have hc2id : teamMemberOf rid (respondUpdate bid true now c) =
      some ⟨bid, bemail, displayNameOf bemail⟩ := by
    simp [teamMemberOf, touchesUser, counterpartId, counterpartEmail,
      respondUpdate, jsTruthy, hreq, hrecmail, hbid, hbemail]
  have hc2id2 : teamMemberOf bid (respondUpdate bid true now c) =
      some ⟨rid, remail, displayNameOf remail⟩ := by
    simp [teamMemberOf, touchesUser, counterpartId, counterpartEmail,
      respondUpdate, jsTruthy, hreq, hreqmail, hrid, hremail,
      fun h => hdiff h]
  have key : ∀ u mid : String,
      (∀ x ∈ store, x ≠ c → contribTo u mid x = false) →
      contribTo u mid (respondUpdate bid true now c) = true →
      memberIdCount u
        (respondToRequest bid bemail pend store cid true now).1 mid = 1 := by
    intro u mid hzero hone
    show memberIdCount u
      (store.map (fun x => if x.id = cid then respondUpdate bid true now x else x))
      mid = 1
    rw [memberIdCount_eq, List.countP_map]
    rw [(List.perm_cons_erase hmem).countP_eq]
    rw [List.countP_cons]
    have hrest : (store.erase c).countP
        ((contribTo u mid) ∘
          (fun x => if x.id = cid then respondUpdate bid true now x else x)) = 0 := by
      apply List.countP_eq_zero.2
      intro x hx
      have hx1 : x ∈ store := List.mem_of_mem_erase hx
      have hx2 : x ≠ c := by
        intro h
        rw [h] at hx
        exact hnodup.not_mem_erase hx
      have hxid : x.id ≠ cid := huniqid x hx1 hx2
      simp [Function.comp, hxid, hzero x hx1 hx2]
    rw [hrest]
    simp [Function.comp, hcid, hone]
  refine ⟨?_, ?_⟩
  · exact key rid bid (fun x hx hne => (hother x hx hne).1)
      (by simp [contribTo, hc2id])
  · exact key bid rid (fun x hx hne => (hother x hx hne).2)
      (by simp [contribTo, hc2id2])

/-- Claim C5, witness: bob accepts alice's fresh pending invitation in
a one-row store (no other connection links the pair); each then lists
the other exactly once. -/
theorem respond_accept_team_symmetry_witness :
    memberIdCount "alice"
      (respondToRequest "bob" "bob@x.com" [examplePending] [examplePending]
        "c1" true 7).1 "bob" = 1 ∧
    memberIdCount "bob"
      (respondToRequest "bob" "bob@x.com" [examplePending] [examplePending]
        "c1" true 7).1 "alice" = 1 :=
  respond_accept_team_symmetry "alice" "alice@x.com" "bob" "bob@x.com" "c1" 7
    [examplePending] [examplePending] examplePending
    (by decide) (by decide) (by decide) (by decide) (by decide) (by decide)
    (by decide) (by decide) (by decide) (by decide) (by decide) (by decide)
    (by decide) (by decide)

end TaskFlow
